import Mathlib

/-!
Verification development for the lemon-markets-websocket client library.

The definitions below are a shallow embedding of the stream-session component
of the library (package `lemon`): the connection state machine, the
subscription registry, the reconnect watchdog with linear backoff, and the
listen loop that classifies incoming payloads.  They are transcribed from the
current revision of `lemon.go` (the variant with the explicit state constants,
`reconnectWatchdog`, `failedReconnects`, `GetState`, `GetSubscriptions` and
the raw-message channel).

Modelling conventions:
  * The WebSocket transport is external.  A dial attempt is abstracted by a
    boolean outcome (`dialOk`); a blocking read is abstracted by a
    `ReadResult` (either a payload or a failure, with a flag telling whether
    `websocket.IsCloseError(err, GoingAway, NormalClosure, AbnormalClosure)`
    holds for the failure).
  * The Go map `subscriptions map[string]uint` is modelled as the list of its
    keys; insertion appends, deletion filters.  The list order plays the role
    of the snapshot (iteration) order.
  * Channel effects are recorded in an `Effects` record: values pushed into
    the user error channel, control messages written with `WriteJSON`, raw
    payloads forwarded to the raw-message channel, decoded updates delivered,
    payloads handed to the JSON decoder, and the minutes slept by the
    watchdog.  A send on a closed channel or a close of a closed channel is a
    runtime panic in Go; the `panicked` flag records it.
  * `reconnectNotifier` is a buffered channel of capacity one owned by the
    stream; it is modelled by the two flags `notifierOpen` and
    `pendingNotify`.  A `for range` loop over a closed Go channel still
    drains buffered values, which the watchdog step reflects.
  * `json.Unmarshal` of a whole payload is external (spec section 1 treats
    decoding as a pure function); the listen loop is therefore parameterised
    by a `decode` function.  The field-level behaviour of unmarshalling a
    tick object is modelled separately over a small JSON value type, with
    JSON numbers as exact rationals.
-/

/-- Connection state constant, from the source. -/
def State_init : String := "initalizing"

/-- Connection state constant, from the source. -/
def State_connecting : String := "connecting"

/-- Connection state constant, from the source. -/
def State_connected : String := "connected"

/-- Connection state constant, from the source.  The source comment calls this
a final state, reached only by calling Disconnect. -/
def State_disconnected : String := "disconnected"

/-- Connection state constant, from the source. -/
def State_waiting_to_reconnect : String := "waiting to reconnect"

/-- The wire-level control message written with WriteJSON (Go struct
`lemonMarketSubscription` with JSON tags action / specifier / value). -/
structure lemonMarketSubscription where
  Action : String
  Specifier : String
  ISIN : String
deriving DecidableEq, Repr

/-- Tick update (Go struct `Tick`).  `Price` is a float64 in Go; JSON decimal
literals are modelled as exact rationals. `Quantity` is a uint. -/
structure Tick where
  ISIN : String
  Price : ℚ
  Quantity : ℕ
deriving DecidableEq, Repr

/-- Quote update (Go struct `Quote`). -/
structure Quote where
  ISIN : String
  Bid : ℚ
  Ask : ℚ
  Bidsize : ℕ
  Asksize : ℕ
deriving DecidableEq, Repr

/-- A decoded update, the role played by the untyped interface values produced
by `getUpdateType` (either a Tick or a Quote). -/
inductive Update
  | tick (t : Tick)
  | quote (q : Quote)
deriving DecidableEq, Repr

/-- The errors the library pushes into the user error channel.  The named
constructors are the package-level error values; `readErr` stands for a raw
transport read error passed through unchanged, `decodeErr` for a
`json.Unmarshal` error passed through unchanged. -/
inductive LemonErr
  | errConnectFailed
  | errConnectionClosed
  | errUnknownISIN
  | errInvalidRequest
  | errNotImplemented
  | readErr (detail : String)
  | decodeErr (detail : String)
deriving DecidableEq, Repr

/-- Outcome of one blocking `ReadMessage` call on the transport.  For a
failure, `isClose` tells whether the error satisfies
`websocket.IsCloseError(err, CloseGoingAway, CloseNormalClosure,
CloseAbnormalClosure)`. -/
inductive ReadResult
  | message (payload : String)
  | failure (isClose : Bool) (detail : String)
deriving DecidableEq, Repr

/-- Which stream variant a `stream` value was constructed as: NewTickStream
or NewQuoteStream.  In the source this choice is stored as a set of closures
(`getUpdateType`, `getSubscription`, `getWebsocketUrl`); the model stores the
selection and derives the closures from it. -/
inductive StreamKind
  | tick
  | quote
deriving DecidableEq, Repr

/-- The `getSubscription` closure installed by NewTickStream resp.
NewQuoteStream: action "subscribe" with the variant specifier. -/
def getSubscriptionFor : StreamKind → String → lemonMarketSubscription
  | StreamKind.tick, isin =>
      { Action := "subscribe", Specifier := "with-quantity-with-uncovered", ISIN := isin }
  | StreamKind.quote, isin =>
      { Action := "subscribe", Specifier := "with-quantity-with-price", ISIN := isin }

/-- The shared `stream` struct.  `connOpen` models whether the websocket
connection handle is open; `notifierOpen` and `pendingNotify` model the
buffered (capacity 1) `reconnectNotifier` channel; `rawTap` models
`rawMessages != nil`. -/
structure stream where
  kind : StreamKind
  connOpen : Bool
  processData : Bool
  subscriptions : List String
  failedReconnects : ℤ
  state : String
  notifierOpen : Bool
  pendingNotify : Bool
  rawTap : Bool
deriving DecidableEq, Repr

/-- Observable channel traffic and side conditions of one or more operations. -/
structure Effects where
  errors : List LemonErr := []
  sent : List lemonMarketSubscription := []
  raws : List String := []
  updates : List Update := []
  decodeInputs : List String := []
  delays : List ℤ := []
  panicked : Bool := false
deriving DecidableEq, Repr

/-- Sequential composition of effect records. -/
def Effects.merge (a b : Effects) : Effects :=
  { errors := a.errors ++ b.errors
    sent := a.sent ++ b.sent
    raws := a.raws ++ b.raws
    updates := a.updates ++ b.updates
    decodeInputs := a.decodeInputs ++ b.decodeInputs
    delays := a.delays ++ b.delays
    panicked := a.panicked || b.panicked }

/-- stream.init(): zero the shared fields and create the notifier channel
(the watchdog goroutine it spawns is modelled by `wakeStep` below). -/
def streamInit (kind : StreamKind) : stream :=
  { kind := kind
    connOpen := false
    processData := false
    subscriptions := []
    failedReconnects := 0
    state := State_init
    notifierOpen := true
    pendingNotify := false
    rawTap := false }

/-- The counter update in the failing branch of stream.connect(): when
`lms.failedReconnects <= 5`, increment it, else leave it. -/
def bumpFailedReconnects (n : ℤ) : ℤ :=
  if n ≤ 5 then n + 1 else n

/-- stream.connect(): dial; on failure push ErrConnectFailed, bump the
counter and notify the watchdog (a send on the closed notifier channel would
panic); on success store the connection, reset the counter, mark the state
connected, spawn the listen loop and replay one subscribe control message per
registered ISIN in snapshot order. -/
def connect (s : stream) (dialOk : Bool) : stream × Effects :=
  if dialOk then
    ({ s with connOpen := true
              processData := true
              failedReconnects := 0
              state := State_connected },
     { sent := s.subscriptions.map (getSubscriptionFor s.kind) })
  else
    if s.notifierOpen then
      ({ s with failedReconnects := bumpFailedReconnects s.failedReconnects
                pendingNotify := true },
       { errors := [LemonErr.errConnectFailed] })
    else
      ({ s with failedReconnects := bumpFailedReconnects s.failedReconnects },
       { errors := [LemonErr.errConnectFailed], panicked := true })

/-- NewTickStream: init, install the tick closures, set state connecting and
connect.  The current source returns only the stream pointer; there is no
error return value. -/
def NewTickStream (dialOk : Bool) : stream × Effects :=
  connect { streamInit StreamKind.tick with state := State_connecting } dialOk

/-- NewQuoteStream, same shape as NewTickStream. -/
def NewQuoteStream (dialOk : Bool) : stream × Effects :=
  connect { streamInit StreamKind.quote with state := State_connecting } dialOk

/-- stream.Subscribe: insert the ISIN if absent and write one subscribe
control message; if already present do nothing. -/
def Subscribe (s : stream) (isin : String) : stream × Effects :=
  if isin ∈ s.subscriptions then
    (s, {})
  else
    ({ s with subscriptions := s.subscriptions ++ [isin] },
     { sent := [getSubscriptionFor s.kind isin] })

/-- stream.Unsubscribe: if the ISIN is present, delete it and write one
control message with action "unsubscribe" (the Specifier field is left at its
Go zero value); otherwise do nothing. -/
def Unsubscribe (s : stream) (isin : String) : stream × Effects :=
  if isin ∈ s.subscriptions then
    ({ s with subscriptions := s.subscriptions.filter (fun x => x != isin) },
     { sent := [{ Action := "unsubscribe", Specifier := "", ISIN := isin }] })
  else
    (s, {})

/-- stream.GetState. -/
def GetState (s : stream) : String :=
  s.state

/-- stream.GetSubscriptions: the snapshot of the registry. -/
def GetSubscriptions (s : stream) : List String :=
  s.subscriptions

/-- stream.Disconnect: set state disconnected, stop the listen loop, close
the websocket connection and close the notifier channel.  Closing an already
closed Go channel panics, which the `panicked` flag records. -/
def Disconnect (s : stream) : stream × Effects :=
  if s.notifierOpen then
    ({ s with state := State_disconnected
              processData := false
              connOpen := false
              notifierOpen := false },
     {})
  else
    ({ s with state := State_disconnected
              processData := false
              connOpen := false },
     { panicked := true })

/-- Boolean test that `pat` occurs at the front of `hay` (character lists). -/
def charsStartWith : List Char → List Char → Bool
  | [], _ => true
  | _ :: _, [] => false
  | p :: ps, h :: hs => p == h && charsStartWith ps hs

/-- Boolean substring containment, the role of `strings.Contains`. -/
def strContains (hay pat : String) : Bool :=
  (List.range (hay.toList.length + 1)).any
    (fun i => charsStartWith pat.toList (hay.toList.drop i))

/-- isUnknownISIN: the payload contains the provider error marker. -/
def isUnknownISIN (message : String) : Bool :=
  strContains message "This instrument does not exist"

/-- isInvalidRequest: the payload contains the provider error marker. -/
def isInvalidRequest (message : String) : Bool :=
  strContains message "Invalid request"

/-- One completed iteration of the body of stream.listen() for read outcome
`r`.  On a read failure: stop processing, push ErrConnectionClosed for a
graceful close class error and the raw error otherwise, and notify the
watchdog unless the state is already disconnected.  On a payload: the two
marker tests come first and short-circuit (their branches touch neither the
raw-message channel nor the decoder); otherwise the payload is forwarded to
the raw-message channel when one is set, then decoded, pushing either the
decode error or the typed update. -/
def listenStep (decode : String → Except String Update) (s : stream)
    (r : ReadResult) : stream × Effects :=
  match r with
  | ReadResult.failure isClose detail =>
      let e := if isClose then LemonErr.errConnectionClosed else LemonErr.readErr detail
      if s.state ≠ State_disconnected then
        if s.notifierOpen then
          ({ s with processData := false, pendingNotify := true }, { errors := [e] })
        else
          ({ s with processData := false }, { errors := [e], panicked := true })
      else
        ({ s with processData := false }, { errors := [e] })
  | ReadResult.message p =>
      if isUnknownISIN p then
        (s, { errors := [LemonErr.errUnknownISIN] })
      else if isInvalidRequest p then
        (s, { errors := [LemonErr.errInvalidRequest] })
      else
        match decode p with
        | Except.error d =>
            (s, { errors := [LemonErr.decodeErr d]
                  raws := if s.rawTap then [p] else []
                  decodeInputs := [p] })
        | Except.ok u =>
            (s, { updates := [u]
                  raws := if s.rawTap then [p] else []
                  decodeInputs := [p] })

/-- stream.SetRawMessageChannel. -/
def SetRawMessageChannel (s : stream) : stream :=
  { s with rawTap := true }

/-- One iteration of stream.reconnectWatchdog(): when a notification is
pending, pop it (a range loop over a Go channel drains buffered values even
after the channel is closed), enter the waiting state, sleep
`failedReconnects` minutes (recorded in `delays`), enter the connecting state
and call connect.  When nothing is pending the loop is blocked (or has
exited) and nothing happens. -/
def wakeStep (s : stream) (dialOk : Bool) : stream × Effects :=
  if s.pendingNotify then
    let d := s.failedReconnects
    let res := connect { s with pendingNotify := false, state := State_connecting } dialOk
    (res.1, { res.2 with delays := d :: res.2.delays })
  else
    (s, {})

/-- The caller-or-transport actions that can reach a live stream value after
construction: a Subscribe or Unsubscribe call, one completed listen-loop
iteration, or one watchdog iteration with the given dial outcome. -/
inductive Act
  | sub (isin : String)
  | unsub (isin : String)
  | read (r : ReadResult)
  | wake (dialOk : Bool)

/-- Dispatch one action. -/
def stepAct (decode : String → Except String Update) (s : stream) :
    Act → stream × Effects
  | Act.sub isin => Subscribe s isin
  | Act.unsub isin => Unsubscribe s isin
  | Act.read r => listenStep decode s r
  | Act.wake dialOk => wakeStep s dialOk

/-- Run a sequence of actions, accumulating effects. -/
def runActs (decode : String → Except String Update) (s : stream) :
    List Act → stream × Effects
  | [] => (s, {})
  | a :: rest =>
      let first := stepAct decode s a
      let later := runActs decode first.1 rest
      (later.1, Effects.merge first.2 later.2)

/-- A flat JSON value, sufficient for the wire payloads of this provider.
JSON numbers are modelled as exact rationals. -/
inductive JsonVal
  | jstr (s : String)
  | jnum (q : ℚ)
deriving DecidableEq, Repr

/-- A flat JSON object: its list of key-value pairs. -/
abbrev JsonObj := List (String × JsonVal)

/-- First value stored under a key, if any. -/
def jLookup (obj : JsonObj) (key : String) : Option JsonVal :=
  (obj.find? (fun p => p.1 == key)).map (fun p => p.2)

/-- Field-level model of `json.Unmarshal(msg, update.(*Tick))` on a flat JSON
object: a missing field keeps the Go zero value, a field of the wrong JSON
type is an unmarshal error, and `quantity` is a uint so a fractional or
negative number is an unmarshal error. -/
def decodeTick (obj : JsonObj) : Except String Tick := do
  let isin ← match jLookup obj "isin" with
    | none => pure ""
    | some (JsonVal.jstr v) => pure v
    | some _ => Except.error "json: cannot unmarshal value into field isin"
  let price ← match jLookup obj "price" with
    | none => pure (0 : ℚ)
    | some (JsonVal.jnum q) => pure q
    | some _ => Except.error "json: cannot unmarshal value into field price"
  let quantity ← match jLookup obj "quantity" with
    | none => pure (0 : ℕ)
    | some (JsonVal.jnum q) =>
        if q.den = 1 ∧ 0 ≤ q.num then pure q.num.toNat
        else Except.error "json: cannot unmarshal value into field quantity"
    | some _ => Except.error "json: cannot unmarshal value into field quantity"
  pure { ISIN := isin, Price := price, Quantity := quantity }

/-- The was-a-trade predicate of the README (`WasTrade`, defined as
`Quantity > 0`), applied to the current Tick type. -/
def WasTrade (t : Tick) : Bool :=
  decide (0 < t.Quantity)

/-- The well-formed Tick payload of the spec with a chosen quantity:
an object with isin DE000TUAG000, price 12.34 and the given quantity. -/
def tickPayload (q : ℚ) : JsonObj :=
  [("isin", JsonVal.jstr "DE000TUAG000"),
   ("price", JsonVal.jnum (1234 / 100)),
   ("quantity", JsonVal.jnum q)]

/-- A stream value as produced by a successful NewTickStream connect, with
one registered subscription; used as concrete input of several witnesses. -/
def demoConnected : stream :=
  { kind := StreamKind.tick
    connOpen := true
    processData := true
    subscriptions := ["DE000TUAG000"]
    failedReconnects := 0
    state := State_connected
    notifierOpen := true
    pendingNotify := false
    rawTap := false }

/-- The stream obtained by disconnecting `demoConnected`. -/
def demoDisconnected : stream :=
  (Disconnect demoConnected).1

/-- A decode function that rejects every payload; used where the decode
outcome is irrelevant. -/
def decodeNone : String → Except String Update :=
  fun _ => Except.error "unused"

/-- C10: decoding the Tick payload with isin DE000TUAG000, price 12.34
(= 1234/100) and quantity 0 yields exactly that Tick, the was-a-trade
predicate rejects it, the same payload with quantity 10 is accepted as a
trade, and in general the predicate holds exactly when Quantity is
positive. -/
theorem c10_tick_decode_wasTrade :
    decodeTick (tickPayload 0)
      = Except.ok { ISIN := "DE000TUAG000", Price := 1234 / 100, Quantity := 0 } ∧
    WasTrade { ISIN := "DE000TUAG000", Price := 1234 / 100, Quantity := 0 } = false ∧
    decodeTick (tickPayload 10)
      = Except.ok { ISIN := "DE000TUAG000", Price := 1234 / 100, Quantity := 10 } ∧
    WasTrade { ISIN := "DE000TUAG000", Price := 1234 / 100, Quantity := 10 } = true ∧
    ∀ t : Tick, WasTrade t = true ↔ 0 < t.Quantity := by
  refine ⟨by rfl, by decide, by rfl, by decide, ?_⟩
  intro t
  simp [WasTrade]

/-- C7: the first Disconnect on a connected stream is clean, but a second
Disconnect closes the already closed reconnectNotifier channel, a runtime
panic in Go, so Disconnect is not an idempotent safe no-op. -/
theorem c7_double_disconnect_panics :
    (Disconnect demoConnected).2.panicked = false ∧
    (Disconnect (Disconnect demoConnected).1).2.panicked = true := by
  decide

/-- C6: for an ISIN not yet registered, Subscribe twice leaves the registry
containing it exactly once, the first call writes exactly one subscribe
control message and the second writes none, and Unsubscribe of an absent
ISIN writes nothing and leaves the whole stream unchanged. -/
theorem c6_subscribe_idempotent (s : stream) (isin : String)
    (h : isin ∉ s.subscriptions) :
    (Subscribe (Subscribe s isin).1 isin).1.subscriptions.count isin = 1 ∧
    (Subscribe s isin).2.sent = [getSubscriptionFor s.kind isin] ∧
    (Subscribe (Subscribe s isin).1 isin).2.sent = [] ∧
    Unsubscribe s isin = (s, {}) := by
  have h1 : Subscribe s isin
      = ({ s with subscriptions := s.subscriptions ++ [isin] },
         { sent := [getSubscriptionFor s.kind isin] }) := by
    simp [Subscribe, h]
  have hmem : isin ∈ s.subscriptions ++ [isin] := by simp
  have h2 : Subscribe { s with subscriptions := s.subscriptions ++ [isin] } isin
      = ({ s with subscriptions := s.subscriptions ++ [isin] }, {}) := by
    simp [Subscribe, hmem]
  refine ⟨?_, ?_, ?_, ?_⟩
  · rw [h1]
    simp only [h2]
    rw [List.count_append]
    rw [List.count_eq_zero.mpr h]
    simp
  · rw [h1]
  · rw [h1]
    simp only [h2]
  · simp [Unsubscribe, h]

/-- Witness for c6_subscribe_idempotent on a freshly initialised tick stream
and the ISIN DE000TUAG000. -/
theorem c6_subscribe_idempotent_witness :
    "DE000TUAG000" ∉ (streamInit StreamKind.tick).subscriptions ∧
    ((Subscribe (Subscribe (streamInit StreamKind.tick) "DE000TUAG000").1
        "DE000TUAG000").1.subscriptions.count "DE000TUAG000" = 1 ∧
     (Subscribe (streamInit StreamKind.tick) "DE000TUAG000").2.sent
        = [getSubscriptionFor (streamInit StreamKind.tick).kind "DE000TUAG000"] ∧
     (Subscribe (Subscribe (streamInit StreamKind.tick) "DE000TUAG000").1
        "DE000TUAG000").2.sent = [] ∧
     Unsubscribe (streamInit StreamKind.tick) "DE000TUAG000"
        = (streamInit StreamKind.tick, {})) :=
  ⟨by decide, c6_subscribe_idempotent (streamInit StreamKind.tick) "DE000TUAG000" (by decide)⟩

/-- C8: for a registered ISIN, Unsubscribe removes it from the registry and
writes exactly one control message whose action field is "unsubscribe"; in
general every control message written by Subscribe carries action
"subscribe" and every control message written by Unsubscribe carries action
"unsubscribe". -/
theorem c8_unsubscribe_action (s : stream) (isin : String)
    (h : isin ∈ s.subscriptions) :
    (Unsubscribe s isin).2.sent
      = [{ Action := "unsubscribe", Specifier := "", ISIN := isin }] ∧
    isin ∉ (Unsubscribe s isin).1.subscriptions ∧
    (∀ s2 : stream, ∀ i : String, ∀ m ∈ (Subscribe s2 i).2.sent,
        m.Action = "subscribe") ∧
    (∀ s2 : stream, ∀ i : String, ∀ m ∈ (Unsubscribe s2 i).2.sent,
        m.Action = "unsubscribe") := by
  refine ⟨by simp [Unsubscribe, h], ?_, ?_, ?_⟩
  · simp [Unsubscribe, h]
  · intro s2 i m hm
    by_cases hi : i ∈ s2.subscriptions
    · simp [Subscribe, hi] at hm
    · simp [Subscribe, hi] at hm
      subst hm
      cases s2.kind <;> rfl
  · intro s2 i m hm
    by_cases hi : i ∈ s2.subscriptions
    · simp [Unsubscribe, hi] at hm
      subst hm
      rfl
    · simp [Unsubscribe, hi] at hm

/-- Witness for c8_unsubscribe_action on the demo connected stream, which has
DE000TUAG000 registered. -/
theorem c8_unsubscribe_action_witness :
    "DE000TUAG000" ∈ demoConnected.subscriptions ∧
    ((Unsubscribe demoConnected "DE000TUAG000").2.sent
       = [{ Action := "unsubscribe", Specifier := "", ISIN := "DE000TUAG000" }] ∧
     "DE000TUAG000" ∉ (Unsubscribe demoConnected "DE000TUAG000").1.subscriptions ∧
     (∀ s2 : stream, ∀ i : String, ∀ m ∈ (Subscribe s2 i).2.sent,
         m.Action = "subscribe") ∧
     (∀ s2 : stream, ∀ i : String, ∀ m ∈ (Unsubscribe s2 i).2.sent,
         m.Action = "unsubscribe")) :=
  ⟨by decide, c8_unsubscribe_action demoConnected "DE000TUAG000" (by decide)⟩

/-- C5: while processing is active, a payload carrying the unknown-instrument
marker makes the listen loop push exactly ErrUnknownISIN and nothing else
(in particular the payload is not handed to the decoder and not forwarded to
the raw-message channel), a payload carrying the invalid-request marker
pushes exactly ErrInvalidRequest, and a payload that fails to decode pushes
exactly the decode error with no update delivered; in every one of these
cases the stream value is unchanged, so the connection stays open, the
registry is untouched and the loop keeps processing. -/
theorem c5_message_local_errors (decode : String → Except String Update)
    (s : stream) (p : String) (hp : s.processData = true) :
    (isUnknownISIN p = true →
       listenStep decode s (ReadResult.message p)
         = (s, { errors := [LemonErr.errUnknownISIN] })) ∧
    (isUnknownISIN p = false → isInvalidRequest p = true →
       listenStep decode s (ReadResult.message p)
         = (s, { errors := [LemonErr.errInvalidRequest] })) ∧
    (isUnknownISIN p = false → isInvalidRequest p = false →
       ∀ d : String, decode p = Except.error d →
       listenStep decode s (ReadResult.message p)
         = (s, { errors := [LemonErr.decodeErr d]
                 raws := if s.rawTap then [p] else []
                 decodeInputs := [p] })) ∧
    (listenStep decode s (ReadResult.message p)).1 = s ∧
    (listenStep decode s (ReadResult.message p)).1.processData = true := by
  have hid : (listenStep decode s (ReadResult.message p)).1 = s := by
    by_cases h1 : isUnknownISIN p
    · simp [listenStep, h1]
    · by_cases h2 : isInvalidRequest p
      · simp [listenStep, h1, h2]
      · cases hd : decode p <;> simp [listenStep, h1, h2, hd]
  refine ⟨?_, ?_, ?_, hid, by rw [hid]; exact hp⟩
  · intro h1
    simp [listenStep, h1]
  · intro h1 h2
    simp [listenStep, h1, h2]
  · intro h1 h2 d hd
    simp [listenStep, h1, h2, hd]

/-- Witness for c5_message_local_errors on the demo connected stream: the
provider phrase for an unknown instrument yields exactly ErrUnknownISIN and
leaves the stream unchanged. -/
theorem c5_message_local_errors_witness :
    demoConnected.processData = true ∧
    listenStep decodeNone demoConnected
        (ReadResult.message "This instrument does not exist")
      = (demoConnected, { errors := [LemonErr.errUnknownISIN] }) :=
  ⟨rfl,
   (c5_message_local_errors decodeNone demoConnected
      "This instrument does not exist" rfl).1 (by decide)⟩

/-- C9 correction: with a raw-message channel registered, a payload that is
classified as an error marker is NOT forwarded to the raw-message channel
(the marker branches of the listen loop return before the forwarding step),
so not every successfully read payload reaches the tap. -/
theorem c9_marker_not_forwarded_counterexample :
    (SetRawMessageChannel demoConnected).rawTap = true ∧
    isUnknownISIN "This instrument does not exist" = true ∧
    (listenStep decodeNone (SetRawMessageChannel demoConnected)
        (ReadResult.message "This instrument does not exist")).2.raws = [] := by
  decide

/-- C9 amended: with a raw-message channel registered, every successfully
read payload that is not classified as an error marker is forwarded to the
channel verbatim, whether or not it subsequently decodes. -/
theorem c9_raw_tap_amended (decode : String → Except String Update)
    (s : stream) (p : String) (htap : s.rawTap = true)
    (h1 : isUnknownISIN p = false) (h2 : isInvalidRequest p = false) :
    (listenStep decode s (ReadResult.message p)).2.raws = [p] := by
  cases hd : decode p <;> simp [listenStep, h1, h2, hd, htap]

/-- Witness for c9_raw_tap_amended: a non-marker payload that fails to decode
is still forwarded verbatim. -/
theorem c9_raw_tap_amended_witness :
    (SetRawMessageChannel demoConnected).rawTap = true ∧
    isUnknownISIN "hello" = false ∧
    isInvalidRequest "hello" = false ∧
    (listenStep decodeNone (SetRawMessageChannel demoConnected)
        (ReadResult.message "hello")).2.raws = ["hello"] :=
  ⟨rfl, by decide, by decide,
   c9_raw_tap_amended decodeNone (SetRawMessageChannel demoConnected) "hello"
     rfl (by decide) (by decide)⟩

/-- C1 correction: after Disconnect the state is disconnected, yet when the
transport then reports a closure the still-running listen iteration pushes
ErrConnectionClosed into the user error channel (the state guard in the
source only suppresses the reconnect notification, not the error push). -/
theorem c1_error_after_disconnect_counterexample :
    GetState demoDisconnected = State_disconnected ∧
    (listenStep decodeNone demoDisconnected
        (ReadResult.failure true "websocket closed")).2.errors
      = [LemonErr.errConnectionClosed] := by
  decide

/-- A stream on which Disconnect has completed and no reconnect notification
was pending at that moment (so the watchdog has nothing left to drain). -/
def quietDisconnected (s : stream) : Prop :=
  s.state = State_disconnected ∧ s.pendingNotify = false

/-- One action taken from a quiet disconnected stream keeps it quiet and
disconnected, pushes no ErrConnectFailed and performs no backoff wait. -/
theorem stepAct_quiet (decode : String → Except String Update)
    (s : stream) (a : Act) (h : quietDisconnected s) :
    quietDisconnected (stepAct decode s a).1 ∧
    LemonErr.errConnectFailed ∉ (stepAct decode s a).2.errors ∧
    (stepAct decode s a).2.delays = [] := by
  obtain ⟨hst, hpn⟩ := h
  cases a with
  | sub isin =>
      by_cases hi : isin ∈ s.subscriptions <;>
        simp [stepAct, Subscribe, hi, quietDisconnected, hst, hpn]
  | unsub isin =>
      by_cases hi : isin ∈ s.subscriptions <;>
        simp [stepAct, Unsubscribe, hi, quietDisconnected, hst, hpn]
  | wake dialOk =>
      simp [stepAct, wakeStep, hpn, quietDisconnected, hst]
  | read r =>
      cases r with
      | message p =>
          by_cases h1 : isUnknownISIN p
          · simp [stepAct, listenStep, h1, quietDisconnected, hst, hpn]
          · by_cases h2 : isInvalidRequest p
            · simp [stepAct, listenStep, h1, h2, quietDisconnected, hst, hpn]
            · cases hd : decode p <;>
                simp [stepAct, listenStep, h1, h2, hd, quietDisconnected, hst, hpn]
      | failure isClose detail =>
          have hne : ¬ (s.state ≠ State_disconnected) := by simp [hst]
          cases isClose <;>
            simp [stepAct, listenStep, hne, quietDisconnected, hst, hpn]

/-- C1 amended: once Disconnect has run and no reconnect notification was
pending at that moment, every further sequence of Subscribe, Unsubscribe,
listen-loop and watchdog actions leaves GetState equal to the disconnected
state (there is no outgoing transition), never pushes ErrConnectFailed and
never performs a backoff wait; the listen loop may however still push one
final ErrConnectionClosed, as `c1_error_after_disconnect_counterexample`
records. -/
theorem c1_disconnect_terminal_amended (decode : String → Except String Update)
    (s : stream) (acts : List Act) (h : quietDisconnected s) :
    GetState (runActs decode s acts).1 = State_disconnected ∧
    quietDisconnected (runActs decode s acts).1 ∧
    LemonErr.errConnectFailed ∉ (runActs decode s acts).2.errors ∧
    (runActs decode s acts).2.delays = [] := by
  induction acts generalizing s with
  | nil => exact ⟨h.1, h, by simp [runActs], rfl⟩
  | cons a rest ih =>
      obtain ⟨hq, herr, hdel⟩ := stepAct_quiet decode s a h
      obtain ⟨ihst, ihq, iherr, ihdel⟩ := ih (stepAct decode s a).1 hq
      refine ⟨ihst, ihq, ?_, ?_⟩
      · simpa [runActs, Effects.merge, herr] using iherr
      · simp [runActs, Effects.merge, hdel, ihdel]
  
/-- Witness for c1_disconnect_terminal_amended: the demo stream after its
Disconnect, facing one final transport closure report. -/
theorem c1_disconnect_terminal_witness :
    quietDisconnected demoDisconnected ∧
    (GetState (runActs decodeNone demoDisconnected
        [Act.read (ReadResult.failure true "websocket closed")]).1
       = State_disconnected ∧
     quietDisconnected (runActs decodeNone demoDisconnected
        [Act.read (ReadResult.failure true "websocket closed")]).1 ∧
     LemonErr.errConnectFailed ∉ (runActs decodeNone demoDisconnected
        [Act.read (ReadResult.failure true "websocket closed")]).2.errors ∧
     (runActs decodeNone demoDisconnected
        [Act.read (ReadResult.failure true "websocket closed")]).2.delays = []) :=
  ⟨⟨rfl, rfl⟩,
   c1_disconnect_terminal_amended decodeNone demoDisconnected
     [Act.read (ReadResult.failure true "websocket closed")] ⟨rfl, rfl⟩⟩

/-- The ISIN stored by the tick and quote subscribe messages is the argument
itself. -/
theorem getSubscriptionFor_ISIN (k : StreamKind) (isin : String) :
    (getSubscriptionFor k isin).ISIN = isin := by
  cases k <;> rfl

/-- The action stored by the tick and quote subscribe messages. -/
theorem getSubscriptionFor_Action (k : StreamKind) (isin : String) :
    (getSubscriptionFor k isin).Action = "subscribe" := by
  cases k <;> rfl

/-- C2: a read failure on a connected stream (a connection drop) leaves the
registry exactly as it was, and the reconnect cycle the drop schedules, once
its dial succeeds, writes exactly one control message per registered ISIN,
in the snapshot order of the registry, each with action "subscribe" (hence
no unsubscribe is written), still leaving the registry unchanged. -/
theorem c2_registry_survives_replay (decode : String → Except String Update)
    (s : stream) (isClose : Bool) (detail : String)
    (hst : s.state = State_connected) (hop : s.notifierOpen = true)
    (hnd : s.subscriptions.Nodup) :
    (listenStep decode s (ReadResult.failure isClose detail)).1.subscriptions
      = s.subscriptions ∧
    (wakeStep (listenStep decode s (ReadResult.failure isClose detail)).1 true).2.sent
      = s.subscriptions.map (getSubscriptionFor s.kind) ∧
    ((wakeStep (listenStep decode s (ReadResult.failure isClose detail)).1 true).2.sent.map
        lemonMarketSubscription.ISIN)
      = s.subscriptions ∧
    (∀ m ∈ (wakeStep (listenStep decode s (ReadResult.failure isClose detail)).1 true).2.sent,
        m.Action = "subscribe") ∧
    ((wakeStep (listenStep decode s (ReadResult.failure isClose detail)).1 true).2.sent.map
        lemonMarketSubscription.ISIN).Nodup ∧
    (wakeStep (listenStep decode s (ReadResult.failure isClose detail)).1 true).1.subscriptions
      = s.subscriptions := by
  have hne : s.state ≠ State_disconnected := by
    rw [hst]
    decide
  have hs1 : (listenStep decode s (ReadResult.failure isClose detail)).1
      = { s with processData := false, pendingNotify := true } := by
    simp [listenStep, hne, hop]
  have hsent :
      (wakeStep (listenStep decode s (ReadResult.failure isClose detail)).1 true).2.sent
        = s.subscriptions.map (getSubscriptionFor s.kind) := by
    rw [hs1]
    simp [wakeStep, connect]
  have hmapisin :
      (s.subscriptions.map (getSubscriptionFor s.kind)).map lemonMarketSubscription.ISIN
        = s.subscriptions := by
    rw [List.map_map]
    have hcomp : lemonMarketSubscription.ISIN ∘ getSubscriptionFor s.kind = id :=
      funext fun i => getSubscriptionFor_ISIN s.kind i
    rw [hcomp, List.map_id]
  refine ⟨by rw [hs1], hsent, ?_, ?_, ?_, ?_⟩
  · rw [hsent, hmapisin]
  · intro m hm
    rw [hsent] at hm
    obtain ⟨i, _, rfl⟩ := List.mem_map.mp hm
    exact getSubscriptionFor_Action s.kind i
  · rw [hsent, hmapisin]
    exact hnd
  · rw [hs1]
    simp [wakeStep, connect]

/-- A connected tick stream with two registered subscriptions, input of the
c2 witness. -/
def demoTwoSubs : stream :=
  { demoConnected with subscriptions := ["DE000TUAG000", "US88160R1014"] }

/-- Witness for c2_registry_survives_replay on a connected stream holding the
set of subscriptions A = DE000TUAG000 and B = US88160R1014. -/
theorem c2_registry_survives_replay_witness :
    demoTwoSubs.state = State_connected ∧
    demoTwoSubs.notifierOpen = true ∧
    demoTwoSubs.subscriptions.Nodup ∧
    ((listenStep decodeNone demoTwoSubs (ReadResult.failure true "drop")).1.subscriptions
       = demoTwoSubs.subscriptions ∧
     (wakeStep (listenStep decodeNone demoTwoSubs (ReadResult.failure true "drop")).1 true).2.sent
       = demoTwoSubs.subscriptions.map (getSubscriptionFor demoTwoSubs.kind) ∧
     ((wakeStep (listenStep decodeNone demoTwoSubs (ReadResult.failure true "drop")).1 true).2.sent.map
         lemonMarketSubscription.ISIN)
       = demoTwoSubs.subscriptions ∧
     (∀ m ∈ (wakeStep (listenStep decodeNone demoTwoSubs (ReadResult.failure true "drop")).1 true).2.sent,
         m.Action = "subscribe") ∧
     ((wakeStep (listenStep decodeNone demoTwoSubs (ReadResult.failure true "drop")).1 true).2.sent.map
         lemonMarketSubscription.ISIN).Nodup ∧
     (wakeStep (listenStep decodeNone demoTwoSubs (ReadResult.failure true "drop")).1 true).1.subscriptions
       = demoTwoSubs.subscriptions) :=
  ⟨rfl, rfl, by decide,
   c2_registry_survives_replay decodeNone demoTwoSubs true "drop" rfl rfl (by decide)⟩

/-- Run of consecutive dial failures: a NewTickStream whose first dial fails,
followed by n watchdog iterations whose dials all fail again. -/
def failIter : ℕ → stream × Effects
  | 0 => NewTickStream false
  | n + 1 =>
      let prev := failIter n
      let w := wakeStep prev.1 false
      (w.1, Effects.merge prev.2 w.2)

/-- The counter update of the source steps the value min (n+1) 6 to
min (n+2) 6. -/
theorem bumpFailedReconnects_min (n : ℕ) :
    bumpFailedReconnects (min ((n : ℤ) + 1) 6) = min ((n : ℤ) + 2) 6 := by
  simp only [bumpFailedReconnects, min_def]
  split_ifs <;> omega

/-- Closed form of the failure run: after the initial failure and n failed
watchdog cycles the counter is min (n+1) 6, a notification is always pending
(so another retry is always scheduled), the notifier channel is open, and
the waits performed so far are min (1) 6, ..., min (n) 6 minutes. -/
theorem failIter_spec (n : ℕ) :
    (failIter n).1.failedReconnects = min ((n : ℤ) + 1) 6 ∧
    (failIter n).1.pendingNotify = true ∧
    (failIter n).1.notifierOpen = true ∧
    (failIter n).2.delays
      = (List.range n).map (fun k : ℕ => min ((k : ℤ) + 1) 6) := by
  induction n with
  | zero => refine ⟨by decide, by decide, by decide, by decide⟩
  | succ n ih =>
      obtain ⟨ih1, ih2, ih3, ih4⟩ := ih
      have hwake : wakeStep (failIter n).1 false
          = ({ (failIter n).1 with
                failedReconnects := bumpFailedReconnects (failIter n).1.failedReconnects
                pendingNotify := true
                state := State_connecting },
             { errors := [LemonErr.errConnectFailed]
               delays := [(failIter n).1.failedReconnects] }) := by
        simp [wakeStep, connect, ih2, ih3]
      refine ⟨?_, ?_, ?_, ?_⟩
      · show (wakeStep (failIter n).1 false).1.failedReconnects = _
        rw [hwake]
        simp only [ih1]
        rw [bumpFailedReconnects_min]
        have hc : ((n : ℤ) + 2) = (((n + 1 : ℕ) : ℤ) + 1) := by push_cast; ring
        rw [hc]
      · show (wakeStep (failIter n).1 false).1.pendingNotify = true
        rw [hwake]
      · show (wakeStep (failIter n).1 false).1.notifierOpen = true
        rw [hwake]
        exact ih3
      · show (Effects.merge (failIter n).2 (wakeStep (failIter n).1 false).2).delays = _
        rw [hwake]
        simp only [Effects.merge, ih4, ih1]
        rw [List.range_succ, List.map_append]
        simp

/-- C3 amended: along any run of consecutive failed dial attempts the wait
delays (failedReconnects minutes each) form a non-decreasing sequence, every
delay is at most 6 minutes, the counter itself never exceeds 6, after every
failure another retry is already scheduled (retrying never stops), and a
subsequent successful dial resets the counter to 0.  The cap is 6, not 5:
the source increments the counter whenever it is still at most 5. -/
theorem c3_backoff_amended (n : ℕ) :
    List.Sorted (· ≤ ·) (failIter n).2.delays ∧
    (∀ d ∈ (failIter n).2.delays, d ≤ 6) ∧
    (failIter n).1.failedReconnects ≤ 6 ∧
    (failIter n).1.pendingNotify = true ∧
    (wakeStep (failIter n).1 true).1.failedReconnects = 0 := by
  obtain ⟨h1, h2, h3, h4⟩ := failIter_spec n
  refine ⟨?_, ?_, ?_, h2, ?_⟩
  · rw [h4, List.Sorted, List.pairwise_map]
    refine (List.sorted_lt_range n).imp ?_
    intro a b hab
    have : (a : ℤ) ≤ (b : ℤ) := by exact_mod_cast hab.le
    exact min_le_min (by omega) le_rfl
  · intro d hd
    rw [h4] at hd
    obtain ⟨k, _, rfl⟩ := List.mem_map.mp hd
    exact min_le_right _ _
  · rw [h1]
    exact min_le_right _ _
  · simp [wakeStep, connect, h2]

/-- C3 correction: seven consecutive dial failures (the constructor attempt
plus six watchdog cycles) drive failedReconnects to 6 and make the stream
wait 6 minutes, exceeding the claimed cap of 5; the counter guard of the
source increments whenever the counter is still at most 5, so both the
counter and the delay reach 6. -/
theorem c3_backoff_cap_counterexample :
    (failIter 6).1.failedReconnects = 6 ∧
    (failIter 6).2.delays = [1, 2, 3, 4, 5, 6] := by
  decide

/-- C4 correction: when the very first dial attempt of NewTickStream fails,
the constructor does not fail synchronously: it pushes ErrConnectFailed into
the user error channel and schedules an automatic retry through the
reconnect notifier. -/
theorem c4_first_failure_schedules_retry :
    (NewTickStream false).1.pendingNotify = true ∧
    (NewTickStream false).2.errors = [LemonErr.errConnectFailed] := by
  decide

/-- C4 amended: the constructor never fails as a call.  For any first dial
outcome it returns a stream; on failure it reports ConnectFailed only
asynchronously through the error sink and schedules an automatic retry
(leaving the state connecting), exactly as for any later connection failure,
while on success it emits nothing and the state is connected. -/
theorem c4_constructor_never_fails (dialOk : Bool) :
    (NewTickStream dialOk).1.state
      = (if dialOk then State_connected else State_connecting) ∧
    (NewTickStream dialOk).2.errors
      = (if dialOk then [] else [LemonErr.errConnectFailed]) ∧
    (NewTickStream dialOk).1.pendingNotify = (if dialOk then false else true) ∧
    (NewTickStream dialOk).2.panicked = false := by
  cases dialOk <;> refine ⟨rfl, rfl, rfl, rfl⟩
